import Mathlib

/-!
Shallow embedding of the authentication module `app/crud/user_crud.py`
(configuration, shop-context resolution, JWT issuance and verification),
together with theorems about its token-issuance-and-validation flow.

Modelling conventions:
- Timestamps and durations are integers counting seconds; `timedelta`
  arguments become integer second counts, `timedelta(minutes=m)` is `m * 60`.
- The JWT library is modelled symbolically: an encoded token is either
  malformed or a signed record carrying its payload, the key it was signed
  with, and the algorithm name.  `jwt.decode(token, key, algorithms=[alg])`
  succeeds exactly when the token is well formed, its key and algorithm
  match, and its `exp` claim (when present) has not elapsed; the underlying
  library treats a token as expired iff `exp < now`.
- A JSON claim that may be present or absent is an `Option`; a claim whose
  value itself may be JSON null (the shop/invoice ids) is an
  `Option (Option Int)`, the outer layer recording presence of the key.
- Python truthiness is preserved where the source relies on it: an
  `Option Int` duration is truthy iff it is `some d` with `d ≠ 0`
  (mirroring `bool(timedelta(0)) = False`).
- The async database session becomes an explicit `Store` value holding the
  user rows (each with its joined shop collection) and the invoice rows.
-/

/-- JWT-relevant and database fields of `Settings` in `app/core/config.py`. -/
structure Settings where
  DB_USER : String
  DB_PASSWORD : String
  DB_HOST : String
  DB_NAME : String
  DB_PORT : Int
  SECRET_KEY : String
  ALGORITHM : String
  ACCESS_TOKEN_EXPIRE_MINUTES : Int
deriving Repr, DecidableEq

/-- A shop row, as far as this module reads it (only its id). -/
structure Shop where
  id : Int
deriving Repr, DecidableEq

/-- A user row together with its joined `shops` collection. -/
structure User where
  id : Int
  login : String
  is_active : Bool
  is_superuser : Bool
  shops : List Shop
deriving Repr, DecidableEq

/-- An invoice row, as far as this module reads it. -/
structure Invoice where
  id : Int
  user_id : Int
  shop_id : Int
  created_at : Int
deriving Repr, DecidableEq

/-- The relational store visible to this module. -/
structure Store where
  users : List User
  invoices : List Invoice
deriving Repr, DecidableEq

/-- `select(User).where(User.id == uid)` followed by `scalar_one_or_none()`. -/
def findUser (store : Store) (uid : Int) : Option User :=
  store.users.find? (fun u => u.id == uid)

/-- The dictionary returned by `get_user_shop_data`. -/
structure ShopData where
  user_shop_id : Option Int
  last_invoice_id : Option Int
deriving Repr, DecidableEq

/-- The invoice rows matching `Invoice.user_id == uid, Invoice.shop_id == sid`. -/
def matchingInvoices (store : Store) (uid sid : Int) : List Invoice :=
  store.invoices.filter (fun i => i.user_id == uid && i.shop_id == sid)

/-- One step of `ORDER BY created_at DESC LIMIT 1`: keep the row with the
later `created_at` (the incumbent wins ties). -/
def pickLater (acc : Option Invoice) (i : Invoice) : Option Invoice :=
  match acc with
  | none => some i
  | some j => if i.created_at > j.created_at then some i else some j

/-- `select(Invoice).where(...).order_by(Invoice.created_at.desc()).limit(1)`
followed by `scalar_one_or_none()`: a row of maximal `created_at` among the
matching rows, or `none` when there is no match. -/
def lastInvoiceOf (store : Store) (uid sid : Int) : Option Invoice :=
  (matchingInvoices store uid sid).foldl pickLater none

/-- `get_user_shop_data(session, user)`. -/
def get_user_shop_data (store : Store) (user : User) : ShopData :=
  match findUser store user.id with
  | none => { user_shop_id := none, last_invoice_id := none }
  | some user_with_shops =>
    match user_with_shops.shops with
    | [] => { user_shop_id := none, last_invoice_id := none }
    | user_shop :: _ =>
      let last_invoice := lastInvoiceOf store user.id user_shop.id
      { user_shop_id := some user_shop.id
        last_invoice_id := last_invoice.map (fun i => i.id) }

/-- A decoded JWT payload.  Every claim the module reads or writes; an
absent claim is `none`. -/
structure Payload where
  user_id : Option Int
  is_superuser : Option Bool
  sub : Option String
  user_shop_id : Option (Option Int)
  last_invoice_id : Option (Option Int)
  exp : Option Int
deriving Repr, DecidableEq

/-- A wire token: either garbage or a payload signed with a key under an
algorithm (symbolic model of the JWT library). -/
inductive Token where
  | malformed
  | signed (payload : Payload) (key : String) (alg : String)
deriving Repr, DecidableEq

/-- `jwt.encode(payload, key, algorithm=alg)`. -/
def jwtEncode (payload : Payload) (key alg : String) : Token :=
  Token.signed payload key alg

/-- `jwt.decode(token, key, algorithms=[alg])` at time `now`: `none` models
raising `JWTError`.  The library rejects an expired token iff `exp < now`;
a token without an `exp` claim passes the expiry check. -/
def jwtDecode (token : Token) (key alg : String) (now : Int) : Option Payload :=
  match token with
  | Token.malformed => none
  | Token.signed payload k a =>
    if k = key ∧ a = alg then
      match payload.exp with
      | some e => if e < now then none else some payload
      | none => some payload
    else none

/-- `create_access_token(user, user_shop_data, expires_delta)` issued at time
`now`.  `if user_shop_data:` and `if expires_delta:` are Python truthiness
tests: the supplied shop-data dictionary is non-empty hence truthy, while a
duration is truthy iff it is nonzero. -/
def create_access_token (settings : Settings) (user : User)
    (user_shop_data : Option ShopData) (expires_delta : Option Int)
    (now : Int) : Token :=
  let to_encode : Payload :=
    { user_id := some user.id
      is_superuser := some user.is_superuser
      sub := some user.login
      user_shop_id := none
      last_invoice_id := none
      exp := none }
  let to_encode :=
    match user_shop_data with
    | some d =>
      { to_encode with
          user_shop_id := some d.user_shop_id
          last_invoice_id := some d.last_invoice_id }
    | none => to_encode
  let expire :=
    match expires_delta with
    | some d =>
      if d ≠ 0 then now + d
      else now + settings.ACCESS_TOKEN_EXPIRE_MINUTES * 60
    | none => now + settings.ACCESS_TOKEN_EXPIRE_MINUTES * 60
  jwtEncode { to_encode with exp := some expire }
    settings.SECRET_KEY settings.ALGORITHM

/-- The payload carried by a well-formed token. -/
def tokenPayload : Token → Option Payload
  | Token.malformed => none
  | Token.signed payload _ _ => some payload

/-- The `exp` claim carried by a well-formed token. -/
def tokenExp (token : Token) : Option Int :=
  match token with
  | Token.malformed => none
  | Token.signed payload _ _ => payload.exp

/-- An `HTTPException` as raised by `get_current_user`: status code, detail
string, and the optional `WWW-Authenticate` header value. -/
structure HTTPError where
  status_code : Nat
  detail : String
  www_authenticate : Option String
deriving Repr, DecidableEq

/-- The 401 exception shared by all credential failures. -/
def credentials_exception : HTTPError :=
  { status_code := 401
    detail := "Could not validate credentials"
    www_authenticate := some "Bearer" }

/-- The 400 exception for an inactive user. -/
def inactive_user_exception : HTTPError :=
  { status_code := 400
    detail := "Inactive user"
    www_authenticate := none }

/-- The `TokenData` record built inside `get_current_user` (the two context
ids are attached to it right after construction). -/
structure TokenData where
  user_id : Int
  is_superuser : Bool
  user_shop_id : Option Int
  last_invoice_id : Option Int
deriving Repr, DecidableEq

/-- The user object returned by `get_current_user`: the stored row plus the
two transient fields attached before returning. -/
structure AuthorizedUser where
  user : User
  current_shop_id : Option Int
  last_invoice_id : Option Int
deriving Repr, DecidableEq

/-- `get_current_user(token, session)` at time `now`: `Except.error` models
raising an `HTTPException`.  `payload.get(k)` on a possibly-null claim is
`Option.join`; `payload.get("is_superuser", False)` is `getD false`. -/
def get_current_user (settings : Settings) (now : Int) (token : Token)
    (store : Store) : Except HTTPError AuthorizedUser :=
  match jwtDecode token settings.SECRET_KEY settings.ALGORITHM now with
  | none => Except.error credentials_exception
  | some payload =>
    let user_shop_id : Option Int := payload.user_shop_id.join
    let last_invoice_id : Option Int := payload.last_invoice_id.join
    let is_superuser : Bool := payload.is_superuser.getD false
    match payload.user_id with
    | none => Except.error credentials_exception
    | some uid =>
      let token_data : TokenData :=
        { user_id := uid
          is_superuser := is_superuser
          user_shop_id := user_shop_id
          last_invoice_id := last_invoice_id }
      match findUser store token_data.user_id with
      | none => Except.error credentials_exception
      | some user =>
        if !user.is_active then Except.error inactive_user_exception
        else
          Except.ok
            { user := user
              current_shop_id := token_data.user_shop_id
              last_invoice_id := token_data.last_invoice_id }

/-! ## Test fixtures (concrete configuration and store used by witnesses) -/

/-- A concrete configuration. -/
def testSettings : Settings :=
  { DB_USER := "svc", DB_PASSWORD := "pw", DB_HOST := "db", DB_NAME := "app"
    DB_PORT := 5432, SECRET_KEY := "topsecret", ALGORITHM := "HS256"
    ACCESS_TOKEN_EXPIRE_MINUTES := 30 }

/-- A concrete shop. -/
def testShop : Shop := { id := 7 }

/-- An active user owning one shop. -/
def testAlice : User :=
  { id := 1, login := "alice", is_active := true, is_superuser := false
    shops := [testShop] }

/-- An inactive user with no shop. -/
def testBob : User :=
  { id := 2, login := "bob", is_active := false, is_superuser := false
    shops := [] }

/-- Three invoices of `testAlice` on `testShop`; the one created at 300 is
the most recent. -/
def testStore : Store :=
  { users := [testAlice, testBob]
    invoices :=
      [ { id := 11, user_id := 1, shop_id := 7, created_at := 100 }
      , { id := 12, user_id := 1, shop_id := 7, created_at := 300 }
      , { id := 13, user_id := 1, shop_id := 7, created_at := 200 } ] }

/-- A payload with every claim the issuer writes, no context claims. -/
def testPayloadNoCtx : Payload :=
  { user_id := some 1, is_superuser := some false, sub := some "alice"
    user_shop_id := none, last_invoice_id := none, exp := some 1800 }

/-- A payload carrying the context claims. -/
def testPayloadFull : Payload :=
  { user_id := some 1, is_superuser := some false, sub := some "alice"
    user_shop_id := some (some 7), last_invoice_id := some (some 12)
    exp := some 1800 }

/-- A payload lacking the `user_id` claim. -/
def testPayloadNoUid : Payload :=
  { user_id := none, is_superuser := some false, sub := some "alice"
    user_shop_id := none, last_invoice_id := none, exp := some 1800 }

/-- A payload naming a user id matching no stored user. -/
def testPayloadGhost : Payload :=
  { user_id := some 99, is_superuser := some false, sub := some "ghost"
    user_shop_id := none, last_invoice_id := none, exp := some 1800 }

/-- A payload naming the inactive user. -/
def testPayloadInactive : Payload :=
  { user_id := some 2, is_superuser := some false, sub := some "bob"
    user_shop_id := none, last_invoice_id := none, exp := some 1800 }

/-! ## Helper lemmas -/

theorem findUser_some {store : Store} {uid : Int} {u : User}
    (h : findUser store uid = some u) : u ∈ store.users ∧ u.id = uid := by
  unfold findUser at h
  refine ⟨List.mem_of_find?_eq_some h, ?_⟩
  have hp := List.find?_some h
  simpa using hp

theorem pickLater_isSome (acc : Option Invoice) (i : Invoice) :
    (pickLater acc i).isSome = true := by
  cases acc with
  | none => rfl
  | some j =>
    simp only [pickLater]
    split <;> rfl

theorem pickLater_arg_le (acc : Option Invoice) (i j : Invoice)
    (h : pickLater acc i = some j) : i.created_at ≤ j.created_at := by
  cases acc with
  | none =>
    simp only [pickLater] at h
    cases h
    exact le_refl _
  | some a =>
    simp only [pickLater] at h
    split at h <;> cases h <;> omega

theorem pickLater_acc_le (a : Invoice) (i j : Invoice)
    (h : pickLater (some a) i = some j) : a.created_at ≤ j.created_at := by
  simp only [pickLater] at h
  split at h <;> cases h <;> omega

theorem foldl_pickLater_none (l : List Invoice) (acc : Option Invoice) :
    l.foldl pickLater acc = none ↔ acc = none ∧ l = [] := by
  induction l generalizing acc with
  | nil => simp
  | cons i l ih =>
    simp only [List.foldl_cons]
    rw [ih]
    have hs := pickLater_isSome acc i
    constructor
    · rintro ⟨h, -⟩
      rw [h] at hs
      cases hs
    · rintro ⟨-, h⟩
      cases h

theorem foldl_pickLater_mem (l : List Invoice) (acc : Option Invoice)
    (j : Invoice) (h : l.foldl pickLater acc = some j) :
    acc = some j ∨ j ∈ l := by
  induction l generalizing acc with
  | nil => exact Or.inl h
  | cons i l ih =>
    simp only [List.foldl_cons] at h
    rcases ih (pickLater acc i) h with hp | hm
    · cases acc with
      | none =>
        simp only [pickLater] at hp
        cases hp
        exact Or.inr (List.mem_cons_self _ _)
      | some a =>
        simp only [pickLater] at hp
        split at hp
        · cases hp
          exact Or.inr (List.mem_cons_self _ _)
        · exact Or.inl hp
    · exact Or.inr (List.mem_cons_of_mem _ hm)

theorem foldl_pickLater_some_acc_le (l : List Invoice) (a j : Invoice)
    (h : l.foldl pickLater (some a) = some j) :
    a.created_at ≤ j.created_at := by
  induction l generalizing a with
  | nil =>
    cases h
    exact le_refl _
  | cons i l ih =>
    simp only [List.foldl_cons] at h
    cases hpick : pickLater (some a) i with
    | none =>
      have := pickLater_isSome (some a) i
      rw [hpick] at this
      cases this
    | some k =>
      rw [hpick] at h
      exact le_trans (pickLater_acc_le a i k hpick) (ih k h)

theorem foldl_pickLater_le (l : List Invoice) (acc : Option Invoice)
    (j : Invoice) (h : l.foldl pickLater acc = some j) :
    ∀ i ∈ l, i.created_at ≤ j.created_at := by
  induction l generalizing acc with
  | nil => intro i hi; cases hi
  | cons i l ih =>
    intro x hx
    simp only [List.foldl_cons] at h
    rcases List.mem_cons.mp hx with hx | hx
    · subst hx
      cases hpick : pickLater acc x with
      | none =>
        have := pickLater_isSome acc x
        rw [hpick] at this
        cases this
      | some k =>
        rw [hpick] at h
        exact le_trans (pickLater_arg_le acc x k hpick)
          (foldl_pickLater_some_acc_le l k j h)
    · exact ih (pickLater acc i) h x hx

theorem lastInvoiceOf_none (store : Store) (uid sid : Int) :
    lastInvoiceOf store uid sid = none ↔ matchingInvoices store uid sid = [] := by
  unfold lastInvoiceOf
  rw [foldl_pickLater_none]
  simp

theorem lastInvoiceOf_spec (store : Store) (uid sid : Int) (inv : Invoice)
    (h : lastInvoiceOf store uid sid = some inv) :
    inv ∈ matchingInvoices store uid sid ∧
      ∀ j ∈ matchingInvoices store uid sid, j.created_at ≤ inv.created_at := by
  unfold lastInvoiceOf at h
  refine ⟨?_, foldl_pickLater_le _ _ _ h⟩
  rcases foldl_pickLater_mem _ _ _ h with hc | hm
  · cases hc
  · exact hm

/-! ## Claims -/

/-- C1: `get_current_user` rejects a malformed/invalid-signature token, a
token whose payload lacks a `user_id` claim, and a token whose `user_id`
matches no stored user, all with the identical outcome — status 401, detail
"Could not validate credentials", header WWW-Authenticate: Bearer — whereas
a valid token for an existing but inactive user is rejected with status 400
and detail "Inactive user". -/
theorem C1_rejection_taxonomy (settings : Settings) (store : Store)
    (now : Int) (token : Token) :
    (jwtDecode token settings.SECRET_KEY settings.ALGORITHM now = none →
      get_current_user settings now token store =
        Except.error credentials_exception) ∧
    (∀ payload,
      jwtDecode token settings.SECRET_KEY settings.ALGORITHM now = some payload →
      payload.user_id = none →
      get_current_user settings now token store =
        Except.error credentials_exception) ∧
    (∀ payload uid,
      jwtDecode token settings.SECRET_KEY settings.ALGORITHM now = some payload →
      payload.user_id = some uid →
      findUser store uid = none →
      get_current_user settings now token store =
        Except.error credentials_exception) ∧
    (∀ payload uid user,
      jwtDecode token settings.SECRET_KEY settings.ALGORITHM now = some payload →
      payload.user_id = some uid →
      findUser store uid = some user →
      user.is_active = false →
      get_current_user settings now token store =
        Except.error inactive_user_exception) ∧
    credentials_exception.status_code = 401 ∧
    credentials_exception.detail = "Could not validate credentials" ∧
    credentials_exception.www_authenticate = some "Bearer" ∧
    inactive_user_exception.status_code = 400 ∧
    inactive_user_exception.detail = "Inactive user" := by
  refine ⟨?_, ?_, ?_, ?_, rfl, rfl, rfl, rfl, rfl⟩
  · intro hdec
    simp [get_current_user, hdec]
  · intro payload hdec huid
    simp [get_current_user, hdec, huid]
  · intro payload uid hdec huid hfind
    simp [get_current_user, hdec, huid, hfind]
  · intro payload uid user hdec huid hfind hact
    simp [get_current_user, hdec, huid, hfind, hact]

/-- Witness for C1: each of the four rejection branches observed on the
concrete store, by the corresponding conjunct of the theorem. -/
theorem C1_rejection_taxonomy_witness :
    get_current_user testSettings 0 Token.malformed testStore =
      Except.error credentials_exception ∧
    get_current_user testSettings 0
        (Token.signed testPayloadNoUid testSettings.SECRET_KEY
          testSettings.ALGORITHM) testStore =
      Except.error credentials_exception ∧
    get_current_user testSettings 0
        (Token.signed testPayloadGhost testSettings.SECRET_KEY
          testSettings.ALGORITHM) testStore =
      Except.error credentials_exception ∧
    get_current_user testSettings 0
        (Token.signed testPayloadInactive testSettings.SECRET_KEY
          testSettings.ALGORITHM) testStore =
      Except.error inactive_user_exception :=
  ⟨(C1_rejection_taxonomy testSettings testStore 0 Token.malformed).1 rfl,
   (C1_rejection_taxonomy testSettings testStore 0
      (Token.signed testPayloadNoUid testSettings.SECRET_KEY
        testSettings.ALGORITHM)).2.1 testPayloadNoUid rfl rfl,
   (C1_rejection_taxonomy testSettings testStore 0
      (Token.signed testPayloadGhost testSettings.SECRET_KEY
        testSettings.ALGORITHM)).2.2.1 testPayloadGhost 99 rfl rfl rfl,
   (C1_rejection_taxonomy testSettings testStore 0
      (Token.signed testPayloadInactive testSettings.SECRET_KEY
        testSettings.ALGORITHM)).2.2.2.1 testPayloadInactive 2 testBob
      rfl rfl rfl rfl⟩

/-- C2: a token issued for user `U` with explicit positive duration `d` at
time `issued`, decoded with the configured secret and algorithm at any time
`t` before `issued + d`, yields the payload whose `user_id` is `U`'s id and
whose `is_superuser` is `U`'s superuser flag. -/
theorem C2_roundtrip (settings : Settings) (user : User)
    (ctx : Option ShopData) (d issued t : Int)
    (hd : 0 < d) (ht : t < issued + d) :
    jwtDecode (create_access_token settings user ctx (some d) issued)
        settings.SECRET_KEY settings.ALGORITHM t =
      some { user_id := some user.id
             is_superuser := some user.is_superuser
             sub := some user.login
             user_shop_id := ctx.map ShopData.user_shop_id
             last_invoice_id := ctx.map ShopData.last_invoice_id
             exp := some (issued + d) } := by
  have hd0 : d ≠ 0 := by omega
  have hexp : ¬ issued + d < t := by omega
  cases ctx <;>
    simp [create_access_token, jwtEncode, jwtDecode, hd0, hexp]

/-- Witness for C2: the round-trip observed on a concrete token decoded
100 seconds after issuance with a 600-second validity. -/
theorem C2_roundtrip_witness :
    jwtDecode (create_access_token testSettings testAlice none (some 600) 0)
        testSettings.SECRET_KEY testSettings.ALGORITHM 100 =
      some { user_id := some testAlice.id
             is_superuser := some testAlice.is_superuser
             sub := some testAlice.login
             user_shop_id := none
             last_invoice_id := none
             exp := some (0 + 600) } :=
  C2_roundtrip testSettings testAlice none 600 0 100 (by decide) (by decide)

/-- Counterexample to C3: with an explicit zero duration (`timedelta(0)` is
falsy in Python), the issuer sets `exp` to now + the configured default
minutes, not to now + the explicit duration. -/
theorem C3_expiry_counterexample :
    tokenExp (create_access_token testSettings testAlice none (some 0) 5) =
      some (5 + testSettings.ACCESS_TOKEN_EXPIRE_MINUTES * 60) ∧
    tokenExp (create_access_token testSettings testAlice none (some 0) 5) ≠
      some (5 + 0) := by
  constructor
  · rfl
  · decide

/-- C3 amended: every issued token has its `exp` claim set; `exp` is exactly
now + the explicit duration when a nonzero explicit duration is given, and
exactly now + the configured default minutes when the duration is absent or
zero (a zero duration is falsy and falls back to the default). -/
theorem C3_expiry_amended (settings : Settings) (user : User)
    (ctx : Option ShopData) (d now : Int) :
    tokenExp (create_access_token settings user ctx (some d) now) =
      some (if d ≠ 0 then now + d
            else now + settings.ACCESS_TOKEN_EXPIRE_MINUTES * 60) ∧
    tokenExp (create_access_token settings user ctx none now) =
      some (now + settings.ACCESS_TOKEN_EXPIRE_MINUTES * 60) := by
  constructor <;> cases ctx <;>
    by_cases hd : d = 0 <;>
      simp [create_access_token, jwtEncode, tokenExp, hd]

/-- C4: the payload built by `create_access_token` carries
`user_id` = the user's id, `is_superuser` = the user's superuser flag and
`sub` = the user's login; the `user_shop_id` and `last_invoice_id` keys are
present exactly when a context record was supplied (carrying its two
fields), and are absent otherwise. -/
theorem C4_payload_contents (settings : Settings) (user : User)
    (ctx : Option ShopData) (d : Option Int) (now : Int) :
    tokenPayload (create_access_token settings user ctx d now) =
      some { user_id := some user.id
             is_superuser := some user.is_superuser
             sub := some user.login
             user_shop_id := ctx.map ShopData.user_shop_id
             last_invoice_id := ctx.map ShopData.last_invoice_id
             exp := tokenExp (create_access_token settings user ctx d now) } ∧
    (ctx.map ShopData.user_shop_id).isSome = ctx.isSome ∧
    (ctx.map ShopData.last_invoice_id).isSome = ctx.isSome := by
  refine ⟨?_, ?_, ?_⟩ <;> cases ctx <;> cases d <;>
    simp [create_access_token, jwtEncode, tokenPayload, tokenExp]

/-- C5: if the user row is not found or the user has zero shops,
`get_user_shop_data` returns the null context; otherwise `user_shop_id` is
the id of the first shop in the user's shop collection, and
`last_invoice_id` is the id of an invoice of maximal `created_at` among the
invoices matching that (user, shop) pair, or null when no invoice matches. -/
theorem C5_shop_context (store : Store) (user : User) :
    (findUser store user.id = none →
      get_user_shop_data store user =
        { user_shop_id := none, last_invoice_id := none }) ∧
    (∀ uw, findUser store user.id = some uw → uw.shops = [] →
      get_user_shop_data store user =
        { user_shop_id := none, last_invoice_id := none }) ∧
    (∀ uw shop rest, findUser store user.id = some uw →
      uw.shops = shop :: rest →
      (get_user_shop_data store user).user_shop_id = some shop.id ∧
      (matchingInvoices store user.id shop.id = [] →
        (get_user_shop_data store user).last_invoice_id = none) ∧
      (matchingInvoices store user.id shop.id ≠ [] →
        ((get_user_shop_data store user).last_invoice_id).isSome = true) ∧
      (∀ iid, (get_user_shop_data store user).last_invoice_id = some iid →
        ∃ inv ∈ matchingInvoices store user.id shop.id, inv.id = iid ∧
          ∀ j ∈ matchingInvoices store user.id shop.id,
            j.created_at ≤ inv.created_at)) := by
  refine ⟨?_, ?_, ?_⟩
  · intro hfind
    simp [get_user_shop_data, hfind]
  · intro uw hfind hshops
    simp [get_user_shop_data, hfind, hshops]
  · intro uw shop rest hfind hshops
    refine ⟨?_, ?_, ?_, ?_⟩
    · simp [get_user_shop_data, hfind, hshops]
    · intro hempty
      have hnone : lastInvoiceOf store user.id shop.id = none :=
        (lastInvoiceOf_none store user.id shop.id).mpr hempty
      simp [get_user_shop_data, hfind, hshops, hnone]
    · intro hne
      cases hlast : lastInvoiceOf store user.id shop.id with
      | none => exact absurd ((lastInvoiceOf_none store user.id shop.id).mp hlast) hne
      | some inv => simp [get_user_shop_data, hfind, hshops, hlast]
    · intro iid hiid
      cases hlast : lastInvoiceOf store user.id shop.id with
      | none =>
        simp [get_user_shop_data, hfind, hshops, hlast] at hiid
      | some inv =>
        simp [get_user_shop_data, hfind, hshops, hlast] at hiid
        obtain ⟨hmem, hmax⟩ := lastInvoiceOf_spec store user.id shop.id inv hlast
        exact ⟨inv, hmem, hiid, hmax⟩

/-- Witness for C5: on the concrete store, `testAlice`'s context names her
first shop and some most-recent invoice, and `testBob` (no shops) gets the
null context; every fact below is produced by the theorem's conjuncts. -/
theorem C5_shop_context_witness :
    (get_user_shop_data testStore testAlice).user_shop_id = some 7 ∧
    ((get_user_shop_data testStore testAlice).last_invoice_id).isSome = true ∧
    get_user_shop_data testStore testBob =
      { user_shop_id := none, last_invoice_id := none } :=
  ⟨((C5_shop_context testStore testAlice).2.2 testAlice testShop []
      rfl rfl).1,
   ((C5_shop_context testStore testAlice).2.2 testAlice testShop []
      rfl rfl).2.2.1 (by decide),
   (C5_shop_context testStore testBob).2.1 testBob rfl rfl⟩

/-- Inversion of the authorized path of `get_current_user`: an `ok` result
pins down the decoded payload, the extracted user id, the reloaded active
user, and the shape of the returned object. -/
theorem get_current_user_ok_inv (settings : Settings) (now : Int)
    (token : Token) (store : Store) (a : AuthorizedUser)
    (h : get_current_user settings now token store = Except.ok a) :
    ∃ payload uid user,
      jwtDecode token settings.SECRET_KEY settings.ALGORITHM now =
        some payload ∧
      payload.user_id = some uid ∧
      findUser store uid = some user ∧
      user.is_active = true ∧
      a = { user := user
            current_shop_id := payload.user_shop_id.join
            last_invoice_id := payload.last_invoice_id.join } := by
  simp only [get_current_user] at h
  split at h
  · cases h
  · rename_i payload hdec
    split at h
    · cases h
    · rename_i uid huid
      split at h
      · cases h
      · rename_i user hfind
        cases hact : user.is_active with
        | false => simp [hact] at h
        | true =>
          simp only [hact, Bool.not_true, Bool.false_eq_true, if_false,
            Except.ok.injEq] at h
          exact ⟨payload, uid, user, hdec, huid, hfind, hact, h.symm⟩

/-- C6: a validly signed token whose `exp` claim has already elapsed at
decode time is rejected with the 401 credentials exception. -/
theorem C6_expired_rejected (settings : Settings) (store : Store)
    (now : Int) (payload : Payload) (e : Int)
    (hexp : payload.exp = some e) (helapsed : e < now) :
    get_current_user settings now
        (Token.signed payload settings.SECRET_KEY settings.ALGORITHM)
        store =
      Except.error credentials_exception := by
  simp [get_current_user, jwtDecode, hexp, helapsed]

/-- Witness for C6: a correctly signed token that expired at time 1800 is
rejected when decoded at time 2000. -/
theorem C6_expired_rejected_witness :
    get_current_user testSettings 2000
        (Token.signed testPayloadNoCtx testSettings.SECRET_KEY
          testSettings.ALGORITHM) testStore =
      Except.error credentials_exception :=
  C6_expired_rejected testSettings testStore 2000 testPayloadNoCtx 1800
    rfl (by decide)

/-- C7: a token signed with a key different from the configured
`SECRET_KEY` is rejected with the 401 credentials exception, for every
payload, algorithm, store and decode time. -/
theorem C7_wrong_secret_rejected (settings : Settings) (store : Store)
    (now : Int) (payload : Payload) (key alg : String)
    (hkey : key ≠ settings.SECRET_KEY) :
    get_current_user settings now (Token.signed payload key alg) store =
      Except.error credentials_exception := by
  simp [get_current_user, jwtDecode, hkey]

/-- Witness for C7: a token signed with a wrong key over an otherwise valid
payload is rejected on the concrete store. -/
theorem C7_wrong_secret_rejected_witness :
    get_current_user testSettings 0
        (Token.signed testPayloadNoCtx "wrongsecret"
          testSettings.ALGORITHM) testStore =
      Except.error credentials_exception :=
  C7_wrong_secret_rejected testSettings testStore 0 testPayloadNoCtx
    "wrongsecret" testSettings.ALGORITHM (by decide)

/-- C8: whenever `get_current_user` authorizes, the returned object carries
the token's decoded `user_shop_id` and `last_invoice_id` as the transient
fields `current_shop_id` and `last_invoice_id`, each null when the
corresponding claim is absent from the payload. -/
theorem C8_context_attached (settings : Settings) (now : Int)
    (token : Token) (store : Store) (a : AuthorizedUser)
    (h : get_current_user settings now token store = Except.ok a) :
    (jwtDecode token settings.SECRET_KEY settings.ALGORITHM now).isSome =
      true ∧
    ∀ payload,
      jwtDecode token settings.SECRET_KEY settings.ALGORITHM now =
        some payload →
      a.current_shop_id = payload.user_shop_id.join ∧
      a.last_invoice_id = payload.last_invoice_id.join ∧
      (payload.user_shop_id = none → a.current_shop_id = none) ∧
      (payload.last_invoice_id = none → a.last_invoice_id = none) := by
  obtain ⟨payload, uid, user, hdec, -, -, -, ha⟩ :=
    get_current_user_ok_inv settings now token store a h
  constructor
  · rw [hdec]; rfl
  · intro q hq
    rw [hdec] at hq
    cases Option.some.inj hq
    subst ha
    exact ⟨rfl, rfl, fun habs => by simp [habs], fun habs => by simp [habs]⟩

/-- Witness for C8: on an authorized concrete request, both transient
fields equal the joined claims of the concrete payload, and the theorem
also yields the absent-claim case on a context-free token. -/
theorem C8_context_attached_witness :
    (AuthorizedUser.mk testAlice (some 7) (some 12)).current_shop_id =
      testPayloadFull.user_shop_id.join ∧
    (AuthorizedUser.mk testAlice (some 7) (some 12)).last_invoice_id =
      testPayloadFull.last_invoice_id.join ∧
    (AuthorizedUser.mk testAlice none none).current_shop_id = none ∧
    (AuthorizedUser.mk testAlice none none).last_invoice_id = none :=
  let hFull :=
    (C8_context_attached testSettings 0
      (Token.signed testPayloadFull testSettings.SECRET_KEY
        testSettings.ALGORITHM) testStore
      (AuthorizedUser.mk testAlice (some 7) (some 12)) rfl).2
      testPayloadFull rfl
  let hNoCtx :=
    (C8_context_attached testSettings 0
      (Token.signed testPayloadNoCtx testSettings.SECRET_KEY
        testSettings.ALGORITHM) testStore
      (AuthorizedUser.mk testAlice none none) rfl).2
      testPayloadNoCtx rfl
  ⟨hFull.1, hFull.2.1, hNoCtx.2.2.1 rfl, hNoCtx.2.2.2 rfl⟩

/-- C9: whenever `get_current_user` returns a user rather than raising, the
returned user is a stored record, it is active, and its id equals the
token's `user_id` claim (so an inactive or nonexistent user is never
returned). -/
theorem C9_authorized_invariant (settings : Settings) (now : Int)
    (token : Token) (store : Store) (a : AuthorizedUser)
    (h : get_current_user settings now token store = Except.ok a) :
    a.user ∈ store.users ∧ a.user.is_active = true ∧
    ∀ payload,
      jwtDecode token settings.SECRET_KEY settings.ALGORITHM now =
        some payload →
      payload.user_id = some a.user.id ∧
      findUser store a.user.id = some a.user := by
  obtain ⟨payload, uid, user, hdec, huid, hfind, hact, ha⟩ :=
    get_current_user_ok_inv settings now token store a h
  obtain ⟨hmem, hid⟩ := findUser_some hfind
  subst ha
  refine ⟨hmem, hact, ?_⟩
  intro q hq
  rw [hdec] at hq
  cases Option.some.inj hq
  constructor
  · rw [huid]
    simp only [hid]
  · simp only [hid]
    exact hfind

/-- Witness for C9: an authorized concrete request returns the active
stored user `testAlice`, whose id matches the token's `user_id` claim. -/
theorem C9_authorized_invariant_witness :
    testAlice ∈ testStore.users ∧ testAlice.is_active = true ∧
    testPayloadFull.user_id = some testAlice.id ∧
    findUser testStore testAlice.id = some testAlice :=
  let h :=
    C9_authorized_invariant testSettings 0
      (Token.signed testPayloadFull testSettings.SECRET_KEY
        testSettings.ALGORITHM) testStore
      (AuthorizedUser.mk testAlice (some 7) (some 12)) rfl
  ⟨h.1, h.2.1, (h.2.2 testPayloadFull rfl).1, (h.2.2 testPayloadFull rfl).2⟩

/-- C10: two validly signed tokens agreeing on every claim except
`is_superuser` produce the same `get_current_user` result on the same
store; when the result is authorized, the returned user is the reloaded
store record, so its superuser status comes from the store, never from the
token's `is_superuser` claim. -/
theorem C10_superuser_noninterference (settings : Settings) (now : Int)
    (store : Store) (payload : Payload) (b₁ b₂ : Option Bool) :
    get_current_user settings now
        (Token.signed { payload with is_superuser := b₁ }
          settings.SECRET_KEY settings.ALGORITHM) store =
      get_current_user settings now
        (Token.signed { payload with is_superuser := b₂ }
          settings.SECRET_KEY settings.ALGORITHM) store ∧
    ∀ a,
      get_current_user settings now
          (Token.signed { payload with is_superuser := b₁ }
            settings.SECRET_KEY settings.ALGORITHM) store =
        Except.ok a →
      a.user ∈ store.users := by
  constructor
  · cases hexp : payload.exp with
    | none => simp [get_current_user, jwtDecode, hexp]
    | some e =>
      by_cases hlt : e < now
      · simp [get_current_user, jwtDecode, hexp, hlt]
      · simp [get_current_user, jwtDecode, hexp, hlt]
  · intro a h
    obtain ⟨q, uid, user, -, -, hfind, -, ha⟩ :=
      get_current_user_ok_inv settings now _ store a h
    subst ha
    exact (findUser_some hfind).1

/-- Witness for C10: flipping the `is_superuser` claim between absent and
true leaves the concrete authorized result unchanged, and the returned
user is a stored record. -/
theorem C10_superuser_noninterference_witness :
    get_current_user testSettings 0
        (Token.signed { testPayloadFull with is_superuser := none }
          testSettings.SECRET_KEY testSettings.ALGORITHM) testStore =
      get_current_user testSettings 0
        (Token.signed { testPayloadFull with is_superuser := some true }
          testSettings.SECRET_KEY testSettings.ALGORITHM) testStore ∧
    (AuthorizedUser.mk testAlice (some 7) (some 12)).user ∈
      testStore.users :=
  ⟨(C10_superuser_noninterference testSettings 0 testStore testPayloadFull
      none (some true)).1,
   (C10_superuser_noninterference testSettings 0 testStore testPayloadFull
      none (some true)).2
     (AuthorizedUser.mk testAlice (some 7) (some 12)) rfl⟩
